import Mathlib

/-!
Verification of the Bluetooth hardware-quirk resolution engine in
`opencore_legacy_patcher/efi_builder/bluetooth.py`.

The source is the class `BuildBluetooth` with entry point `_build`, which
dispatches between `_on_model` (live hardware detection) and
`_prebuilt_assumption` (static model-table fallback), both of which mutate a
configuration document (`self.config`).

The embedding has two layers:
* trace level: each evaluator is a pure function returning the ordered list of
  `PatchAction`s corresponding, one for one and in order, to the configuration
  mutations the Python code performs (`enable_kext` calls, boot-arg appends,
  NVRAM Add/Delete edits, kernel-quirk writes);
* state level: each evaluator is also transcribed directly as a function on the
  configuration document (`ConfigDoc`), mirroring the Python mutations line by
  line.  A bridging theorem shows the state-level run equals applying the
  trace to the initial document, which captures purity/statelessness.
-/

namespace BluetoothBuild

/-- A configuration mutation emitted by the resolution engine.  Each value
mirrors one kind of mutation `bluetooth.py` performs on `self.config` (or via
`support.BuildSupport.enable_kext`).  Byte strings are lists of byte values. -/
inductive PatchAction where
  | enablePatch (name : String)
  | setBootArgument (token : String)
  | setFirmwareVariable (key : String) (value : List Nat)
  | deleteFirmwareVariable (key : String)
  | setQuirkFlag (key : String) (value : Bool)
deriving DecidableEq, Repr

/-- The spec's `EnablePatch("PrimaryBluetoothFixup")` names the kext the source
enables as `"BlueToolFixup.kext"`. -/
def PrimaryBluetoothFixup : String := "BlueToolFixup.kext"

/-- The spec's `EnablePatch("BluetoothAddressSpoof")` names the kext the source
enables as `"Bluetooth-Spoof.kext"`. -/
def BluetoothAddressSpoof : String := "Bluetooth-Spoof.kext"

/-- Modelled from the spec: the companion WiFi chipset tag carried by
`device_probe.Broadcom.Chipsets` (the `detections/device_probe.py` module is
not under `src/`).  The source only ever compares the detected WiFi chipset
against `AirPortBrcm4360`, so one constructor stands for that tag and one for
every other tag. -/
inductive WifiChipset where
  | airPortBrcm4360
  | otherChipset
deriving DecidableEq, Repr

/-- The detected hardware identity consumed by `BuildBluetooth`: the fields of
`device_probe.Computer` the source reads.  `bluetooth_chipset` is an optional
string (the Python attribute is `None` or a chipset name); `wifi` is the
chipset tag of the detected WiFi card, if a card was detected (the Python
attribute is `None` or a device object carrying `.chipset`). -/
structure Computer where
  bluetooth_chipset : Option String
  wifi : Option WifiChipset
deriving DecidableEq, Repr

/-- Modelled from the spec: one record of the external static model table
`smbios_data.smbios_dictionary` (the `datasets/smbios_data.py` module is not
under `src/`).  The source reads `entry["CPU Generation"]` unconditionally and
checks `"Bluetooth Model" in entry` before reading it, so the CPU-generation
ordinal is a total field and the Bluetooth tier an optional one. -/
structure SmbiosEntry where
  cpu_generation : Nat
  bluetooth_model : Option Nat
deriving DecidableEq, Repr

/-- Modelled from the spec: the Ivy-Bridge-equivalent CPU-generation threshold
ordinal `cpu_data.CPUGen.ivy_bridge.value` (the `datasets/cpu_data.py` module
is not under `src/`).  No claim depends on the concrete ordinal, only on its
role as the strict upper bound in `_on_model`. -/
def ivy_bridge_value : Nat := 7

/-- Modelled from the spec: the tier ordinal
`bluetooth_data.bluetooth_data.BRCM2070.value` — the spec's
`TIER_LEGACY_HUB`, the oldest tier class (the `datasets/bluetooth_data.py`
module is not under `src/`). -/
def BRCM2070_value : Nat := 2

/-- Modelled from the spec: the tier ordinal
`bluetooth_data.bluetooth_data.BRCM20702_v1.value` — the spec's
`TIER_TRANSITIONAL_V1` (the `datasets/bluetooth_data.py` module is not under
`src/`).  The spec orders `TIER_LEGACY_HUB` strictly below it. -/
def BRCM20702_v1_value : Nat := 3

/-- A list of `n` zero bytes, as produced by `binascii.unhexlify` on `2*n` zero hex
digits. -/
def zeroBytes (n : Nat) : List Nat := List.replicate n 0

/-- The value `binascii.unhexlify("0000000000000000000000000000")` — 28 zero hex digits,
hence 14 zero bytes. -/
def bluetoothInternalControllerInfoBytes : List Nat := zeroBytes 14

/-- The value `binascii.unhexlify("00")` — 2 zero hex digits, hence 1 zero byte. -/
def bluetoothExternalDongleFailedBytes : List Nat := zeroBytes 1

/-- Trace of `BuildBluetooth._bluetooth_firmware_incompatibility_workaround`:
two NVRAM `Add` writes under the fixed GUID, then the `Delete` list is extended
with the same two keys (in that order). -/
def bluetooth_firmware_incompatibility_workaround : List PatchAction :=
  [ PatchAction.setFirmwareVariable "bluetoothInternalControllerInfo"
      bluetoothInternalControllerInfoBytes,
    PatchAction.setFirmwareVariable "bluetoothExternalDongleFailed"
      bluetoothExternalDongleFailedBytes,
    PatchAction.deleteFirmwareVariable "bluetoothInternalControllerInfo",
    PatchAction.deleteFirmwareVariable "bluetoothExternalDongleFailed" ]

/-- Trace of `BuildBluetooth._on_model`, the Live Rule Evaluator.  Branches
follow the Python `if`/`elif` chain on `self.computer.bluetooth_chipset`
verbatim; a `None` chipset matches no string literal and falls through to the
empty trace.  The static table is the injected read-only
`smbios_data.smbios_dictionary`. -/
def on_model (computer : Computer) (model : String)
    (smbios_dictionary : String → Option SmbiosEntry) : List PatchAction :=
  if computer.bluetooth_chipset = some "BRCM2070 Hub" ∨
      computer.bluetooth_chipset = some "BRCM2046 Hub" then
    [ PatchAction.enablePatch PrimaryBluetoothFixup,
      PatchAction.enablePatch BluetoothAddressSpoof,
      PatchAction.setBootArgument "-btlfxallowanyaddr" ] ++
    bluetooth_firmware_incompatibility_workaround
  else if computer.bluetooth_chipset = some "BRCM20702 Hub" then
    (match computer.wifi with
      | some w =>
        if w = WifiChipset.airPortBrcm4360 then
          [PatchAction.enablePatch PrimaryBluetoothFixup]
        else []
      | none => []) ++
    (match smbios_dictionary model with
      | some entry =>
        if entry.cpu_generation < ivy_bridge_value then
          PatchAction.enablePatch PrimaryBluetoothFixup ::
          bluetooth_firmware_incompatibility_workaround
        else []
      | none => [])
  else if computer.bluetooth_chipset = some "3rd Party Bluetooth 4.0 Hub" ∨
      computer.bluetooth_chipset = some "Generic" then
    [ PatchAction.enablePatch PrimaryBluetoothFixup,
      PatchAction.setQuirkFlag "ExtendBTFeatureFlags" true ]
  else []

/-- Trace of `BuildBluetooth._prebuilt_assumption`, the Fallback Rule
Evaluator: early-return on a missing table entry or missing
`"Bluetooth Model"` key, then the two nested tier comparisons. -/
def prebuilt_assumption (model : String)
    (smbios_dictionary : String → Option SmbiosEntry) : List PatchAction :=
  match smbios_dictionary model with
  | none => []
  | some entry =>
    match entry.bluetooth_model with
    | none => []
    | some tier =>
      if tier ≤ BRCM20702_v1_value then
        PatchAction.enablePatch PrimaryBluetoothFixup ::
        (if tier ≤ BRCM2070_value then
          PatchAction.setBootArgument "-btlfxallowanyaddr" ::
          (bluetooth_firmware_incompatibility_workaround ++
            [PatchAction.enablePatch BluetoothAddressSpoof])
         else [])
      else []

/-- The Python truthiness test `if self.computer.bluetooth_chipset` from
`_build`: `None` and the empty string are falsy, every other string truthy. -/
def chipsetTruthy : Option String → Bool
  | none => false
  | some s => !s.isEmpty

/-- Trace of `BuildBluetooth._build`, the Resolver: with no custom-model
override and a truthy detected chipset it runs `_on_model`, otherwise
`_prebuilt_assumption`. -/
def build (custom_model : Bool) (computer : Computer) (model : String)
    (smbios_dictionary : String → Option SmbiosEntry) : List PatchAction :=
  if !custom_model && chipsetTruthy computer.bluetooth_chipset then
    on_model computer model smbios_dictionary
  else
    prebuilt_assumption model smbios_dictionary

/-! State-level embedding: the configuration document and the evaluators as
direct transcriptions of the Python mutations. -/

/-- The slices of `self.config` the source touches: the boot-argument string
and the other keys under `config["NVRAM"]["Add"][GUID]`, the list
`config["NVRAM"]["Delete"][GUID]`, the quirk
`config["Kernel"]["Quirks"]["ExtendBTFeatureFlags"]`, and the
patch-enablement list maintained by `support.BuildSupport.enable_kext`. -/
structure ConfigDoc where
  boot_args : String
  nvram_add : List (String × List Nat)
  nvram_delete : List String
  extend_bt_feature_flags : Bool
  kexts : List String
deriving DecidableEq, Repr

/-- Python dict assignment `d[k] = v` on an association list: overwrite the
first binding of `k` if present, otherwise append. -/
def setAssoc : List (String × List Nat) → String → List Nat →
    List (String × List Nat)
  | [], k, v => [(k, v)]
  | (k', v') :: rest, k, v =>
    if k' = k then (k, v) :: rest else (k', v') :: setAssoc rest k v

/-- Modelled from the spec: the Action Applier's mutation contract for one
`PatchAction` (`support.BuildSupport.enable_kext` is not under `src/`;
`EnablePatch` "registers a named patch … in a patch-enablement list",
`SetBootArgument` "appends a space-separated token"). -/
def applyAction (cfg : ConfigDoc) : PatchAction → ConfigDoc
  | PatchAction.enablePatch name => { cfg with kexts := cfg.kexts ++ [name] }
  | PatchAction.setBootArgument token =>
      { cfg with boot_args := cfg.boot_args ++ (" " ++ token) }
  | PatchAction.setFirmwareVariable key v =>
      { cfg with nvram_add := setAssoc cfg.nvram_add key v }
  | PatchAction.deleteFirmwareVariable key =>
      { cfg with nvram_delete := cfg.nvram_delete ++ [key] }
  | PatchAction.setQuirkFlag _ b => { cfg with extend_bt_feature_flags := b }

/-- Apply a trace of actions to a document, strictly in sequence order. -/
def applyActions (cfg : ConfigDoc) : List PatchAction → ConfigDoc
  | [] => cfg
  | a :: rest => applyActions (applyAction cfg a) rest

/-- The call `support.BuildSupport(...).enable_kext(name, ...)` as a document
mutation.  Modelled from the spec: `support.py` is not under `src/`; the spec
describes patch enablement as registration in a patch-enablement list. -/
def enable_kext_state (cfg : ConfigDoc) (name : String) : ConfigDoc :=
  { cfg with kexts := cfg.kexts ++ [name] }

/-- The method `_bluetooth_firmware_incompatibility_workaround` transcribed as document
mutations: the two `Add` assignments, then the one `Delete` extension with
both keys. -/
def bluetooth_firmware_incompatibility_workaround_state
    (cfg : ConfigDoc) : ConfigDoc :=
  let cfg1 := { cfg with nvram_add := setAssoc cfg.nvram_add "bluetoothInternalControllerInfo" bluetoothInternalControllerInfoBytes }
  let cfg2 := { cfg1 with nvram_add := setAssoc cfg1.nvram_add "bluetoothExternalDongleFailed" bluetoothExternalDongleFailedBytes }
  { cfg2 with nvram_delete := cfg2.nvram_delete ++ ["bluetoothInternalControllerInfo", "bluetoothExternalDongleFailed"] }

/-- The method `_on_model` transcribed as document mutations, line by line. -/
def on_model_state (computer : Computer) (model : String)
    (smbios_dictionary : String → Option SmbiosEntry)
    (cfg : ConfigDoc) : ConfigDoc :=
  if computer.bluetooth_chipset = some "BRCM2070 Hub" ∨
      computer.bluetooth_chipset = some "BRCM2046 Hub" then
    let cfg1 := enable_kext_state cfg PrimaryBluetoothFixup
    let cfg2 := enable_kext_state cfg1 BluetoothAddressSpoof
    let cfg3 := { cfg2 with boot_args := cfg2.boot_args ++ " -btlfxallowanyaddr" }
    bluetooth_firmware_incompatibility_workaround_state cfg3
  else if computer.bluetooth_chipset = some "BRCM20702 Hub" then
    let cfg1 :=
      match computer.wifi with
      | some w =>
        if w = WifiChipset.airPortBrcm4360 then
          enable_kext_state cfg PrimaryBluetoothFixup
        else cfg
      | none => cfg
    match smbios_dictionary model with
    | some entry =>
      if entry.cpu_generation < ivy_bridge_value then
        bluetooth_firmware_incompatibility_workaround_state
          (enable_kext_state cfg1 PrimaryBluetoothFixup)
      else cfg1
    | none => cfg1
  else if computer.bluetooth_chipset = some "3rd Party Bluetooth 4.0 Hub" ∨
      computer.bluetooth_chipset = some "Generic" then
    let cfg1 := enable_kext_state cfg PrimaryBluetoothFixup
    { cfg1 with extend_bt_feature_flags := true }
  else cfg

/-- The method `_prebuilt_assumption` transcribed as document mutations. -/
def prebuilt_assumption_state (model : String)
    (smbios_dictionary : String → Option SmbiosEntry)
    (cfg : ConfigDoc) : ConfigDoc :=
  match smbios_dictionary model with
  | none => cfg
  | some entry =>
    match entry.bluetooth_model with
    | none => cfg
    | some tier =>
      if tier ≤ BRCM20702_v1_value then
        let cfg1 := enable_kext_state cfg PrimaryBluetoothFixup
        if tier ≤ BRCM2070_value then
          let cfg2 := { cfg1 with boot_args := cfg1.boot_args ++ " -btlfxallowanyaddr" }
          let cfg3 := bluetooth_firmware_incompatibility_workaround_state cfg2
          enable_kext_state cfg3 BluetoothAddressSpoof
        else cfg1
      else cfg

/-- The method `_build` transcribed as a document mutation. -/
def build_state (custom_model : Bool) (computer : Computer) (model : String)
    (smbios_dictionary : String → Option SmbiosEntry)
    (cfg : ConfigDoc) : ConfigDoc :=
  if !custom_model && chipsetTruthy computer.bluetooth_chipset then
    on_model_state computer model smbios_dictionary cfg
  else
    prebuilt_assumption_state model smbios_dictionary cfg

/-- An action that touches a firmware (NVRAM) variable: one of the two kinds
of action emitted by the firmware-incompatibility workaround. -/
def firmwareAction : PatchAction → Bool
  | PatchAction.setFirmwareVariable _ _ => true
  | PatchAction.deleteFirmwareVariable _ => true
  | _ => false

/-- The spec's placement invariant for the workaround block: a result either
contains no firmware-variable actions at all, or it splits as
`l1 ++ workaround ++ l2` where the 4-action workaround block is the only place
firmware-variable actions occur and an `EnablePatch("PrimaryBluetoothFixup")`
action occurs earlier (inside `l1`). -/
def workaroundWellPlaced (acts : List PatchAction) : Prop :=
  (∀ a ∈ acts, firmwareAction a = false) ∨
  (∃ l1 l2, acts = l1 ++ bluetooth_firmware_incompatibility_workaround ++ l2 ∧
    PatchAction.enablePatch PrimaryBluetoothFixup ∈ l1 ∧
    (∀ a ∈ l1, firmwareAction a = false) ∧
    (∀ a ∈ l2, firmwareAction a = false))

/-- A result that contains the base patch `EnablePatch("PrimaryBluetoothFixup")`
(the spec's "base patch triggered"). -/
def baseTriggered (acts : List PatchAction) : Prop :=
  PatchAction.enablePatch PrimaryBluetoothFixup ∈ acts

/-- A result that contains the extended sequence of the fallback path: the
boot argument, the contiguous workaround block, and the address-spoof patch. -/
def extendedTriggered (acts : List PatchAction) : Prop :=
  PatchAction.setBootArgument "-btlfxallowanyaddr" ∈ acts ∧
  (∃ l1 l2, acts = l1 ++ bluetooth_firmware_incompatibility_workaround ++ l2) ∧
  PatchAction.enablePatch BluetoothAddressSpoof ∈ acts

/-! Theorems. -/

/-- Appending the boot-argument token after a space equals the single literal
the Python source appends with `+=`. -/
theorem space_append_token :
    (" " ++ "-btlfxallowanyaddr" : String) = " -btlfxallowanyaddr" := rfl

/-- Helper: on the two legacy hub chipsets the live evaluator's result is the
fixed 7-action sequence. -/
theorem on_model_legacy_eq (computer : Computer) (model : String)
    (table : String → Option SmbiosEntry)
    (h : computer.bluetooth_chipset = some "BRCM2070 Hub" ∨
      computer.bluetooth_chipset = some "BRCM2046 Hub") :
    on_model computer model table =
      [ PatchAction.enablePatch PrimaryBluetoothFixup,
        PatchAction.enablePatch BluetoothAddressSpoof,
        PatchAction.setBootArgument "-btlfxallowanyaddr" ] ++
      bluetooth_firmware_incompatibility_workaround := by
  unfold on_model
  rw [if_pos h]

/-- Helper: on the `"BRCM20702 Hub"` chipset the live evaluator's result is
the concatenation of the independent WiFi-condition part and the
CPU-generation-condition part. -/
theorem on_model_transitional_eq (computer : Computer) (model : String)
    (table : String → Option SmbiosEntry)
    (hbt : computer.bluetooth_chipset = some "BRCM20702 Hub") :
    on_model computer model table =
      (if computer.wifi = some WifiChipset.airPortBrcm4360 then
        [PatchAction.enablePatch PrimaryBluetoothFixup] else []) ++
      (match table model with
        | some entry =>
          if entry.cpu_generation < ivy_bridge_value then
            PatchAction.enablePatch PrimaryBluetoothFixup ::
            bluetooth_firmware_incompatibility_workaround
          else []
        | none => []) := by
  unfold on_model
  rw [hbt]
  rw [if_neg (by decide), if_pos rfl]
  congr 1
  rcases hw : computer.wifi with _ | w
  · simp
  · rcases w <;> simp

/-- Helper: closed form of the fallback evaluator on a model whose static
entry records a Bluetooth tier. -/
theorem prebuilt_assumption_eq (model : String)
    (table : String → Option SmbiosEntry) (entry : SmbiosEntry) (tier : Nat)
    (he : table model = some entry) (ht : entry.bluetooth_model = some tier) :
    prebuilt_assumption model table =
      if tier ≤ BRCM20702_v1_value then
        if tier ≤ BRCM2070_value then
          [ PatchAction.enablePatch PrimaryBluetoothFixup,
            PatchAction.setBootArgument "-btlfxallowanyaddr" ] ++
          bluetooth_firmware_incompatibility_workaround ++
          [ PatchAction.enablePatch BluetoothAddressSpoof ]
        else [PatchAction.enablePatch PrimaryBluetoothFixup]
      else [] := by
  simp only [prebuilt_assumption, he, ht]
  by_cases h1 : tier ≤ BRCM20702_v1_value
  · rw [if_pos h1, if_pos h1]
    by_cases h2 : tier ≤ BRCM2070_value
    · rw [if_pos h2, if_pos h2]
      rfl
    · rw [if_neg h2, if_neg h2]
  · rw [if_neg h1, if_neg h1]

/-- C2: for every input, the Live Rule Evaluator on chipset `"BRCM2070 Hub"`
(LegacyHubA) or `"BRCM2046 Hub"` (LegacyHubB) produces the same fixed 7-action
sequence: `EnablePatch("PrimaryBluetoothFixup")`,
`EnablePatch("BluetoothAddressSpoof")`, `SetBootArgument("-btlfxallowanyaddr")`,
then the four workaround actions (two `SetFirmwareVariable`, two
`DeleteFirmwareVariable`). -/
theorem legacy_hub_family_sequence (computer : Computer) (model : String)
    (table : String → Option SmbiosEntry)
    (h : computer.bluetooth_chipset = some "BRCM2070 Hub" ∨
      computer.bluetooth_chipset = some "BRCM2046 Hub") :
    on_model computer model table =
      [ PatchAction.enablePatch PrimaryBluetoothFixup,
        PatchAction.enablePatch BluetoothAddressSpoof,
        PatchAction.setBootArgument "-btlfxallowanyaddr",
        PatchAction.setFirmwareVariable "bluetoothInternalControllerInfo"
          bluetoothInternalControllerInfoBytes,
        PatchAction.setFirmwareVariable "bluetoothExternalDongleFailed"
          bluetoothExternalDongleFailedBytes,
        PatchAction.deleteFirmwareVariable "bluetoothInternalControllerInfo",
        PatchAction.deleteFirmwareVariable "bluetoothExternalDongleFailed" ] := by
  rw [on_model_legacy_eq computer model table h]
  rfl

/-- Witness for C2: the LegacyHubB chipset at a concrete input produces the
fixed 7-action sequence. -/
theorem legacy_hub_family_sequence_witness :
    on_model ⟨some "BRCM2046 Hub", none⟩ "Mac-7BA5B2D9E42DDD94" (fun _ => none) =
      [ PatchAction.enablePatch PrimaryBluetoothFixup,
        PatchAction.enablePatch BluetoothAddressSpoof,
        PatchAction.setBootArgument "-btlfxallowanyaddr",
        PatchAction.setFirmwareVariable "bluetoothInternalControllerInfo"
          bluetoothInternalControllerInfoBytes,
        PatchAction.setFirmwareVariable "bluetoothExternalDongleFailed"
          bluetoothExternalDongleFailedBytes,
        PatchAction.deleteFirmwareVariable "bluetoothInternalControllerInfo",
        PatchAction.deleteFirmwareVariable "bluetoothExternalDongleFailed" ] :=
  legacy_hub_family_sequence ⟨some "BRCM2046 Hub", none⟩ "Mac-7BA5B2D9E42DDD94"
    (fun _ => none) (Or.inr rfl)

/-- C3: for every model whose static profile records a Bluetooth tier, the
Fallback Rule Evaluator emits `EnablePatch("PrimaryBluetoothFixup")` when
`tier ≤ TIER_TRANSITIONAL_V1`; when additionally `tier ≤ TIER_LEGACY_HUB` it
emits the full fixed 7-action sequence (base patch, boot argument, the
4-action workaround block, then `EnablePatch("BluetoothAddressSpoof")` last);
and when `tier > TIER_TRANSITIONAL_V1` the result is empty. -/
theorem fallback_tier_characterization (model : String)
    (table : String → Option SmbiosEntry) (entry : SmbiosEntry) (tier : Nat)
    (he : table model = some entry) (ht : entry.bluetooth_model = some tier) :
    prebuilt_assumption model table =
      if tier ≤ BRCM20702_v1_value then
        if tier ≤ BRCM2070_value then
          [ PatchAction.enablePatch PrimaryBluetoothFixup,
            PatchAction.setBootArgument "-btlfxallowanyaddr",
            PatchAction.setFirmwareVariable "bluetoothInternalControllerInfo"
              bluetoothInternalControllerInfoBytes,
            PatchAction.setFirmwareVariable "bluetoothExternalDongleFailed"
              bluetoothExternalDongleFailedBytes,
            PatchAction.deleteFirmwareVariable "bluetoothInternalControllerInfo",
            PatchAction.deleteFirmwareVariable "bluetoothExternalDongleFailed",
            PatchAction.enablePatch BluetoothAddressSpoof ]
        else [PatchAction.enablePatch PrimaryBluetoothFixup]
      else [] := by
  rw [prebuilt_assumption_eq model table entry tier he ht]
  by_cases h1 : tier ≤ BRCM20702_v1_value
  · rw [if_pos h1, if_pos h1]
    by_cases h2 : tier ≤ BRCM2070_value
    · rw [if_pos h2, if_pos h2]
      rfl
    · rw [if_neg h2, if_neg h2]
  · rw [if_neg h1, if_neg h1]

/-- Witness for C3: a concrete one-row table at the oldest tier yields the
full fixed 7-action fallback sequence. -/
theorem fallback_tier_characterization_witness :
    prebuilt_assumption "Mac-F22C8AC8"
      (fun m => if m = "Mac-F22C8AC8" then some ⟨3, some 2⟩ else none) =
      if (2 : Nat) ≤ BRCM20702_v1_value then
        if (2 : Nat) ≤ BRCM2070_value then
          [ PatchAction.enablePatch PrimaryBluetoothFixup,
            PatchAction.setBootArgument "-btlfxallowanyaddr",
            PatchAction.setFirmwareVariable "bluetoothInternalControllerInfo"
              bluetoothInternalControllerInfoBytes,
            PatchAction.setFirmwareVariable "bluetoothExternalDongleFailed"
              bluetoothExternalDongleFailedBytes,
            PatchAction.deleteFirmwareVariable "bluetoothInternalControllerInfo",
            PatchAction.deleteFirmwareVariable "bluetoothExternalDongleFailed",
            PatchAction.enablePatch BluetoothAddressSpoof ]
        else [PatchAction.enablePatch PrimaryBluetoothFixup]
      else [] :=
  fallback_tier_characterization "Mac-F22C8AC8"
    (fun m => if m = "Mac-F22C8AC8" then some ⟨3, some 2⟩ else none)
    ⟨3, some 2⟩ 2 (by simp) rfl

/-- C4 (counterexample): the workaround sets
`"bluetoothInternalControllerInfo"` to 14 zero bytes, not 15 as claimed — the
source's hex literal has 28 zero digits. -/
theorem workaround_fifteen_bytes_counterexample :
    bluetoothInternalControllerInfoBytes.length = 14 ∧
    bluetoothInternalControllerInfoBytes ≠ List.replicate 15 0 ∧
    bluetooth_firmware_incompatibility_workaround ≠
      [ PatchAction.setFirmwareVariable "bluetoothInternalControllerInfo"
          (List.replicate 15 0),
        PatchAction.setFirmwareVariable "bluetoothExternalDongleFailed"
          (List.replicate 1 0),
        PatchAction.deleteFirmwareVariable "bluetoothInternalControllerInfo",
        PatchAction.deleteFirmwareVariable "bluetoothExternalDongleFailed" ] := by
  refine ⟨rfl, by decide, by decide⟩

/-- C4 (amended): the workaround sets `"bluetoothInternalControllerInfo"` to
exactly 14 zero bytes and `"bluetoothExternalDongleFailed"` to exactly 1 zero
byte, then marks both keys for deletion, in that order. -/
theorem workaround_sequence :
    bluetooth_firmware_incompatibility_workaround =
      [ PatchAction.setFirmwareVariable "bluetoothInternalControllerInfo"
          (List.replicate 14 0),
        PatchAction.setFirmwareVariable "bluetoothExternalDongleFailed"
          (List.replicate 1 0),
        PatchAction.deleteFirmwareVariable "bluetoothInternalControllerInfo",
        PatchAction.deleteFirmwareVariable "bluetoothExternalDongleFailed" ] := by
  decide

/-- C1: on the `"BRCM20702 Hub"` (TransitionalHub) chipset the Live Rule
Evaluator evaluates two independent, non-exclusive conditions: a detected
`AirPortBrcm4360` companion WiFi chipset emits
`EnablePatch("PrimaryBluetoothFixup")` regardless of CPU generation; a static
profile with CPU generation strictly below the Ivy-Bridge threshold emits
`EnablePatch("PrimaryBluetoothFixup")` followed by the workaround block
regardless of the WiFi chipset; both together emit the patch twice (no
deduplication); neither yields the empty result. -/
theorem transitional_hub_conditions (computer : Computer) (model : String)
    (table : String → Option SmbiosEntry)
    (hbt : computer.bluetooth_chipset = some "BRCM20702 Hub") :
    (computer.wifi = some WifiChipset.airPortBrcm4360 →
      ∃ rest, on_model computer model table =
        PatchAction.enablePatch PrimaryBluetoothFixup :: rest) ∧
    ((∃ entry, table model = some entry ∧
        entry.cpu_generation < ivy_bridge_value) →
      ∃ front, on_model computer model table =
        front ++ PatchAction.enablePatch PrimaryBluetoothFixup ::
          bluetooth_firmware_incompatibility_workaround ∧
        (front = [] ∨ front = [PatchAction.enablePatch PrimaryBluetoothFixup])) ∧
    ((computer.wifi = some WifiChipset.airPortBrcm4360 ∧
      ∃ entry, table model = some entry ∧
        entry.cpu_generation < ivy_bridge_value) →
      (on_model computer model table).count
        (PatchAction.enablePatch PrimaryBluetoothFixup) = 2) ∧
    ((¬computer.wifi = some WifiChipset.airPortBrcm4360 ∧
      ¬∃ entry, table model = some entry ∧
        entry.cpu_generation < ivy_bridge_value) →
      on_model computer model table = []) := by
  have key := on_model_transitional_eq computer model table hbt
  refine ⟨?_, ?_, ?_, ?_⟩
  · intro hw
    rw [key, if_pos hw]
    exact ⟨_, rfl⟩
  · rintro ⟨entry, he, hcpu⟩
    rw [key]
    simp only [he]
    rw [if_pos hcpu]
    by_cases hw : computer.wifi = some WifiChipset.airPortBrcm4360
    · rw [if_pos hw]
      exact ⟨[PatchAction.enablePatch PrimaryBluetoothFixup], rfl, Or.inr rfl⟩
    · rw [if_neg hw]
      exact ⟨[], rfl, Or.inl rfl⟩
  · rintro ⟨hw, entry, he, hcpu⟩
    rw [key]
    simp only [he]
    rw [if_pos hcpu, if_pos hw]
    decide
  · rintro ⟨hw, hcpu⟩
    rw [key, if_neg hw]
    rcases he : table model with _ | entry
    · simp
    · simp only [he]
      rw [if_neg (fun hlt => hcpu ⟨entry, he, hlt⟩)]
      rfl

/-- Witness for C1: a `"BRCM20702 Hub"` machine with no WiFi card and no
static-table entry yields the empty result. -/
theorem transitional_hub_conditions_witness :
    on_model ⟨some "BRCM20702 Hub", none⟩ "Mac-942B5BF58194151B"
      (fun _ => none) = [] :=
  (transitional_hub_conditions ⟨some "BRCM20702 Hub", none⟩
      "Mac-942B5BF58194151B" (fun _ => none) rfl).2.2.2
    ⟨by decide, fun hex => by
      obtain ⟨e, he, hlt⟩ := hex
      exact Option.noConfusion he⟩

/-- C5: the Resolver delegates to the Live Rule Evaluator exactly when the
custom-model override is off and the detected Bluetooth chipset is present
(Python-truthy: not `None` and not empty), and to the Fallback Rule Evaluator
in every other case; the two cases are an exact dichotomy. -/
theorem resolver_delegation (custom_model : Bool) (computer : Computer)
    (model : String) (table : String → Option SmbiosEntry) :
    (custom_model = false ∧ chipsetTruthy computer.bluetooth_chipset = true →
      build custom_model computer model table =
        on_model computer model table) ∧
    (¬(custom_model = false ∧ chipsetTruthy computer.bluetooth_chipset = true) →
      build custom_model computer model table =
        prebuilt_assumption model table) := by
  constructor
  · rintro ⟨h1, h2⟩
    have hcond : (!custom_model && chipsetTruthy computer.bluetooth_chipset) = true := by
      rw [h1, h2]
      rfl
    unfold build
    rw [if_pos hcond]
  · intro h
    have hcond : ¬((!custom_model && chipsetTruthy computer.bluetooth_chipset) = true) := by
      intro hc
      rw [Bool.and_eq_true, Bool.not_eq_true'] at hc
      exact h hc
    unfold build
    rw [if_neg hcond]

/-- Witness for C5: with the override off and a detected chipset the Resolver
returns the live evaluation; flipping the override on returns the fallback
evaluation. -/
theorem resolver_delegation_witness :
    build false ⟨some "Generic", none⟩ "Mac-942C5DF58193131B" (fun _ => none) =
      on_model ⟨some "Generic", none⟩ "Mac-942C5DF58193131B" (fun _ => none) ∧
    build true ⟨some "Generic", none⟩ "Mac-942C5DF58193131B" (fun _ => none) =
      prebuilt_assumption "Mac-942C5DF58193131B" (fun _ => none) :=
  ⟨(resolver_delegation false ⟨some "Generic", none⟩ "Mac-942C5DF58193131B"
      (fun _ => none)).1 ⟨rfl, rfl⟩,
   (resolver_delegation true ⟨some "Generic", none⟩ "Mac-942C5DF58193131B"
      (fun _ => none)).2 (fun hc => Bool.noConfusion hc.1)⟩

/-- C7: neither evaluator can fail: a hardware identity whose chipset tag
matches none of the five known tags makes the Live Rule Evaluator return the
empty sequence, and a model with no static-table entry, or whose entry lacks
a Bluetooth tier, makes the Fallback Rule Evaluator return the empty
sequence. -/
theorem unknown_inputs_yield_empty (computer : Computer) (model : String)
    (table : String → Option SmbiosEntry)
    (hbt : ∀ s, computer.bluetooth_chipset = some s →
      s ≠ "BRCM2070 Hub" ∧ s ≠ "BRCM2046 Hub" ∧ s ≠ "BRCM20702 Hub" ∧
      s ≠ "3rd Party Bluetooth 4.0 Hub" ∧ s ≠ "Generic") :
    on_model computer model table = [] ∧
    (table model = none → prebuilt_assumption model table = []) ∧
    (∀ entry, table model = some entry → entry.bluetooth_model = none →
      prebuilt_assumption model table = []) := by
  refine ⟨?_, ?_, ?_⟩
  · rcases hcs : computer.bluetooth_chipset with _ | s
    · simp [on_model, hcs]
    · obtain ⟨h1, h2, h3, h4, h5⟩ := hbt s hcs
      simp [on_model, hcs, h1, h2, h3, h4, h5]
  · intro h
    simp [prebuilt_assumption, h]
  · intro entry he hbm
    simp [prebuilt_assumption, he, hbm]

/-- Witness for C7: an unrecognized chipset tag yields the empty live result,
and a model absent from a concrete empty table yields the empty fallback
result. -/
theorem unknown_inputs_yield_empty_witness :
    on_model ⟨some "BRCM20703 Hub", none⟩ "Mac-2BD1B31983FE1663"
      (fun _ => none) = [] ∧
    prebuilt_assumption "Mac-2BD1B31983FE1663" (fun _ => none) = [] := by
  have h := unknown_inputs_yield_empty ⟨some "BRCM20703 Hub", none⟩
    "Mac-2BD1B31983FE1663" (fun _ => none)
    (fun s hs => by
      injection hs with h
      subst h
      decide)
  exact ⟨h.1, h.2.1 rfl⟩

/-- C6: the Fallback Rule Evaluator is monotonic in the Bluetooth tier: with
all else equal, if a newer tier B triggers the base patch then every older
tier A < B also triggers it, and if tier B triggers the extended sequence
(boot argument, contiguous workaround block, address spoof) then tier A also
triggers it. -/
theorem fallback_tier_monotonic (model : String) (cpu tA tB : Nat)
    (hAB : tA < tB) :
    (baseTriggered (prebuilt_assumption model
        (fun m => if m = model then some ⟨cpu, some tB⟩ else none)) →
      baseTriggered (prebuilt_assumption model
        (fun m => if m = model then some ⟨cpu, some tA⟩ else none))) ∧
    (extendedTriggered (prebuilt_assumption model
        (fun m => if m = model then some ⟨cpu, some tB⟩ else none)) →
      extendedTriggered (prebuilt_assumption model
        (fun m => if m = model then some ⟨cpu, some tA⟩ else none))) := by
  have hpre : ∀ t : Nat, prebuilt_assumption model
      (fun m => if m = model then some ⟨cpu, some t⟩ else none) =
      if t ≤ BRCM20702_v1_value then
        if t ≤ BRCM2070_value then
          [ PatchAction.enablePatch PrimaryBluetoothFixup,
            PatchAction.setBootArgument "-btlfxallowanyaddr" ] ++
          bluetooth_firmware_incompatibility_workaround ++
          [ PatchAction.enablePatch BluetoothAddressSpoof ]
        else [PatchAction.enablePatch PrimaryBluetoothFixup]
      else [] := by
    intro t
    exact prebuilt_assumption_eq model
      (fun m => if m = model then some ⟨cpu, some t⟩ else none)
      ⟨cpu, some t⟩ t (by simp) rfl
  constructor
  · intro hbase
    have hB3 : tB ≤ BRCM20702_v1_value := by
      by_contra hng
      rw [hpre tB, if_neg hng] at hbase
      exact absurd hbase (List.not_mem_nil _)
    have hA3 : tA ≤ BRCM20702_v1_value := le_of_lt (lt_of_lt_of_le hAB hB3)
    rw [hpre tA, if_pos hA3]
    by_cases hA2 : tA ≤ BRCM2070_value
    · rw [if_pos hA2]
      exact List.mem_cons_self _ _
    · rw [if_neg hA2]
      exact List.mem_cons_self _ _
  · intro hext
    obtain ⟨hbarg, _, _⟩ := hext
    have hB2 : tB ≤ BRCM2070_value := by
      by_contra hng
      rw [hpre tB] at hbarg
      by_cases h3 : tB ≤ BRCM20702_v1_value
      · rw [if_pos h3, if_neg hng] at hbarg
        simp [PrimaryBluetoothFixup] at hbarg
      · rw [if_neg h3] at hbarg
        exact absurd hbarg (List.not_mem_nil _)
    have hA2 : tA ≤ BRCM2070_value := le_of_lt (lt_of_lt_of_le hAB hB2)
    have hA3 : tA ≤ BRCM20702_v1_value :=
      le_trans hA2 (by decide)
    rw [hpre tA, if_pos hA3, if_pos hA2]
    exact ⟨by decide,
      ⟨[ PatchAction.enablePatch PrimaryBluetoothFixup,
         PatchAction.setBootArgument "-btlfxallowanyaddr" ],
       [ PatchAction.enablePatch BluetoothAddressSpoof ], rfl⟩,
      by decide⟩

/-- Witness for C6: with tier 3 triggering the base patch, the strictly older
tier 2 also triggers it at a concrete one-row table. -/
theorem fallback_tier_monotonic_witness :
    baseTriggered (prebuilt_assumption "Mac-RowOne"
      (fun m => if m = "Mac-RowOne" then some ⟨4, some 2⟩ else none)) :=
  (fallback_tier_monotonic "Mac-RowOne" 4 2 3 (by decide)).1
    (show PatchAction.enablePatch PrimaryBluetoothFixup ∈
        prebuilt_assumption "Mac-RowOne"
          (fun m => if m = "Mac-RowOne" then some ⟨4, some 3⟩ else none)
      from by decide)

/-- C10: the live legacy-hub branch and the fallback oldest-tier branch emit
permutations of the same seven actions in different orders: the live path
emits the address-spoof patch second (right after the base patch, before the
boot argument and the workaround block), the fallback path emits it last. -/
theorem legacy_order_divergence (computer : Computer) (model : String)
    (table : String → Option SmbiosEntry) (entry : SmbiosEntry) (tier : Nat)
    (hbt : computer.bluetooth_chipset = some "BRCM2070 Hub" ∨
      computer.bluetooth_chipset = some "BRCM2046 Hub")
    (he : table model = some entry) (ht : entry.bluetooth_model = some tier)
    (htier : tier ≤ BRCM2070_value) :
    on_model computer model table =
      [ PatchAction.enablePatch PrimaryBluetoothFixup,
        PatchAction.enablePatch BluetoothAddressSpoof,
        PatchAction.setBootArgument "-btlfxallowanyaddr" ] ++
      bluetooth_firmware_incompatibility_workaround ∧
    prebuilt_assumption model table =
      [ PatchAction.enablePatch PrimaryBluetoothFixup,
        PatchAction.setBootArgument "-btlfxallowanyaddr" ] ++
      bluetooth_firmware_incompatibility_workaround ++
      [ PatchAction.enablePatch BluetoothAddressSpoof ] ∧
    (on_model computer model table).Perm (prebuilt_assumption model table) ∧
    on_model computer model table ≠ prebuilt_assumption model table := by
  have h1 := on_model_legacy_eq computer model table hbt
  have h2 : prebuilt_assumption model table =
      [ PatchAction.enablePatch PrimaryBluetoothFixup,
        PatchAction.setBootArgument "-btlfxallowanyaddr" ] ++
      bluetooth_firmware_incompatibility_workaround ++
      [ PatchAction.enablePatch BluetoothAddressSpoof ] := by
    rw [prebuilt_assumption_eq model table entry tier he ht,
      if_pos (le_trans htier (by decide)), if_pos htier]
  refine ⟨h1, h2, ?_, ?_⟩
  · rw [h1, h2]
    decide
  · rw [h1, h2]
    decide

/-- Witness for C10: at a concrete legacy-hub machine with a tier-2 one-row
table, the live and fallback results differ. -/
theorem legacy_order_divergence_witness :
    on_model ⟨some "BRCM2070 Hub", none⟩ "Mac-00BE6ED71E35EB86"
      (fun m => if m = "Mac-00BE6ED71E35EB86" then some ⟨3, some 2⟩ else none) ≠
    prebuilt_assumption "Mac-00BE6ED71E35EB86"
      (fun m => if m = "Mac-00BE6ED71E35EB86" then some ⟨3, some 2⟩ else none) :=
  (legacy_order_divergence ⟨some "BRCM2070 Hub", none⟩ "Mac-00BE6ED71E35EB86"
    (fun m => if m = "Mac-00BE6ED71E35EB86" then some ⟨3, some 2⟩ else none)
    ⟨3, some 2⟩ 2 (Or.inl rfl) (by simp) rfl (by decide)).2.2.2

/-- C8: in every result of either evaluator the firmware-incompatibility
workaround appears only as one contiguous block of exactly 4 actions (the only
firmware-variable actions in the result), and whenever the block appears an
`EnablePatch("PrimaryBluetoothFixup")` action precedes it in the same
result. -/
theorem workaround_block_invariant (computer : Computer) (model : String)
    (table : String → Option SmbiosEntry) :
    workaroundWellPlaced (on_model computer model table) ∧
    workaroundWellPlaced (prebuilt_assumption model table) := by
  constructor
  · by_cases h1 : computer.bluetooth_chipset = some "BRCM2070 Hub" ∨
        computer.bluetooth_chipset = some "BRCM2046 Hub"
    · rw [on_model_legacy_eq computer model table h1]
      exact Or.inr ⟨[ PatchAction.enablePatch PrimaryBluetoothFixup,
          PatchAction.enablePatch BluetoothAddressSpoof,
          PatchAction.setBootArgument "-btlfxallowanyaddr" ], [],
        by decide, by decide, by decide, by decide⟩
    · by_cases h2 : computer.bluetooth_chipset = some "BRCM20702 Hub"
      · rw [on_model_transitional_eq computer model table h2]
        have hm : (match table model with
            | some entry =>
              if entry.cpu_generation < ivy_bridge_value then
                PatchAction.enablePatch PrimaryBluetoothFixup ::
                bluetooth_firmware_incompatibility_workaround
              else []
            | none => ([] : List PatchAction)) = [] ∨
            (match table model with
            | some entry =>
              if entry.cpu_generation < ivy_bridge_value then
                PatchAction.enablePatch PrimaryBluetoothFixup ::
                bluetooth_firmware_incompatibility_workaround
              else []
            | none => ([] : List PatchAction)) =
              PatchAction.enablePatch PrimaryBluetoothFixup ::
              bluetooth_firmware_incompatibility_workaround := by
          rcases table model with _ | entry
          · exact Or.inl rfl
          · by_cases hc : entry.cpu_generation < ivy_bridge_value
            · exact Or.inr (if_pos hc)
            · exact Or.inl (if_neg hc)
        by_cases hw : computer.wifi = some WifiChipset.airPortBrcm4360
        · rw [if_pos hw]
          rcases hm with hm | hm
          · rw [hm]
            exact Or.inl (by decide)
          · rw [hm]
            exact Or.inr ⟨[ PatchAction.enablePatch PrimaryBluetoothFixup,
                PatchAction.enablePatch PrimaryBluetoothFixup ], [],
              by decide, by decide, by decide, by decide⟩
        · rw [if_neg hw]
          rcases hm with hm | hm
          · rw [hm]
            exact Or.inl (by decide)
          · rw [hm]
            exact Or.inr ⟨[PatchAction.enablePatch PrimaryBluetoothFixup], [],
              by decide, by decide, by decide, by decide⟩
      · by_cases h3 : computer.bluetooth_chipset = some "3rd Party Bluetooth 4.0 Hub" ∨
            computer.bluetooth_chipset = some "Generic"
        · unfold on_model
          rw [if_neg h1, if_neg h2, if_pos h3]
          exact Or.inl (by decide)
        · unfold on_model
          rw [if_neg h1, if_neg h2, if_neg h3]
          exact Or.inl (by simp)
  · rcases he : table model with _ | entry
    · have hz : prebuilt_assumption model table = [] := by
        simp [prebuilt_assumption, he]
      rw [hz]
      exact Or.inl (by simp)
    · rcases hbm : entry.bluetooth_model with _ | tier
      · have hz : prebuilt_assumption model table = [] := by
          simp [prebuilt_assumption, he, hbm]
        rw [hz]
        exact Or.inl (by simp)
      · rw [prebuilt_assumption_eq model table entry tier he hbm]
        by_cases t3 : tier ≤ BRCM20702_v1_value
        · rw [if_pos t3]
          by_cases t2 : tier ≤ BRCM2070_value
          · rw [if_pos t2]
            exact Or.inr ⟨[ PatchAction.enablePatch PrimaryBluetoothFixup,
                PatchAction.setBootArgument "-btlfxallowanyaddr" ],
              [PatchAction.enablePatch BluetoothAddressSpoof],
              by decide, by decide, by decide, by decide⟩
          · rw [if_neg t2]
            exact Or.inl (by decide)
        · rw [if_neg t3]
          exact Or.inl (by simp)

/-- C9: resolution is deterministic and stateless: each transcribed evaluator
run on a configuration document equals applying its emitted action trace —
which is a pure function of the inputs and independent of the document — to
that document, so identical inputs always yield sequence-equal traces and the
only effect of a run is the in-order application of its own trace. -/
theorem resolution_stateless (custom_model : Bool) (computer : Computer)
    (model : String) (table : String → Option SmbiosEntry) :
    (∀ cfg, on_model_state computer model table cfg =
      applyActions cfg (on_model computer model table)) ∧
    (∀ cfg, prebuilt_assumption_state model table cfg =
      applyActions cfg (prebuilt_assumption model table)) ∧
    (∀ cfg, build_state custom_model computer model table cfg =
      applyActions cfg (build custom_model computer model table)) := by
  have hOn : ∀ cfg, on_model_state computer model table cfg =
      applyActions cfg (on_model computer model table) := by
    intro cfg
    unfold on_model_state on_model
    by_cases h1 : computer.bluetooth_chipset = some "BRCM2070 Hub" ∨
        computer.bluetooth_chipset = some "BRCM2046 Hub"
    · rw [if_pos h1, if_pos h1]
      simp [enable_kext_state, bluetooth_firmware_incompatibility_workaround_state,
        bluetooth_firmware_incompatibility_workaround, applyActions, applyAction,
        space_append_token]
    · rw [if_neg h1, if_neg h1]
      by_cases h2 : computer.bluetooth_chipset = some "BRCM20702 Hub"
      · rw [if_pos h2, if_pos h2]
        rcases computer.wifi with _ | w
        · rcases table model with _ | entry
          · rfl
          · by_cases hc : entry.cpu_generation < ivy_bridge_value <;>
              simp [hc, enable_kext_state,
                bluetooth_firmware_incompatibility_workaround_state,
                bluetooth_firmware_incompatibility_workaround,
                applyActions, applyAction]
        · rcases table model with _ | entry
          · rcases w <;> rfl
          · rcases w <;> by_cases hc : entry.cpu_generation < ivy_bridge_value <;>
              simp [hc, enable_kext_state,
                bluetooth_firmware_incompatibility_workaround_state,
                bluetooth_firmware_incompatibility_workaround,
                applyActions, applyAction]
      · by_cases h3 : computer.bluetooth_chipset = some "3rd Party Bluetooth 4.0 Hub" ∨
            computer.bluetooth_chipset = some "Generic"
        · rw [if_neg h2, if_neg h2, if_pos h3, if_pos h3]
          rfl
        · rw [if_neg h2, if_neg h2, if_neg h3, if_neg h3]
          rfl
  have hPre : ∀ cfg, prebuilt_assumption_state model table cfg =
      applyActions cfg (prebuilt_assumption model table) := by
    intro cfg
    rcases he : table model with _ | entry
    · simp [prebuilt_assumption_state, prebuilt_assumption, he, applyActions]
    · rcases hbm : entry.bluetooth_model with _ | tier
      · simp [prebuilt_assumption_state, prebuilt_assumption, he, hbm, applyActions]
      · by_cases h3 : tier ≤ BRCM20702_v1_value
        · by_cases h2 : tier ≤ BRCM2070_value
          · simp [prebuilt_assumption_state, prebuilt_assumption, he, hbm, h3, h2,
              enable_kext_state, bluetooth_firmware_incompatibility_workaround_state,
              bluetooth_firmware_incompatibility_workaround, applyActions, applyAction,
              space_append_token]
          · simp [prebuilt_assumption_state, prebuilt_assumption, he, hbm, h3, h2,
              enable_kext_state, applyActions, applyAction]
        · simp [prebuilt_assumption_state, prebuilt_assumption, he, hbm, h3,
            applyActions]
  refine ⟨hOn, hPre, ?_⟩
  intro cfg
  unfold build_state build
  by_cases hc : (!custom_model && chipsetTruthy computer.bluetooth_chipset) = true
  · rw [if_pos hc, if_pos hc]
    exact hOn cfg
  · rw [if_neg hc, if_neg hc]
    exact hPre cfg

end BluetoothBuild
